import Mathlib

/-!
Shallow embedding of `src/Python/plotlog.py`.

The script loads a JSON document, takes `curves` and `data` from its first
element, extracts the index column (column 0 of `data`), and for each curve
position 1..len(curves)-1 creates a subplot, plots the (value, index) series,
inverts the vertical axis, moves value-axis ticks/label to the top, suppresses
vertical tick labels except on the first subplot, and sets axis labels from
the curve metadata.

Python failure modes are made explicit: an out-of-range row access
(`row[i]`) is `PlotError.indexError`, a missing `name`/`unit` dictionary key
is `PlotError.keyError`. A `Curve` models the JSON object, so its two keys
are `Option`-valued. Matplotlib calls that cannot fail (subplot creation,
plotting a series, axis configuration) are modelled as total record updates
collected in a `Subplot` value.
-/

namespace PlotLog

/-- A curve object from the JSON document. The `name` and `unit` keys may be
absent, which the script only discovers when it reads them. -/
structure Curve where
  name? : Option String
  unit? : Option String
  deriving Repr, DecidableEq, Inhabited

/-- A log: the `curves` metadata list and the `data` rows, as read from the
first element of the JSON document. -/
structure Log where
  curves : List Curve
  data : List (List Int)
  deriving Repr, DecidableEq, Inhabited

/-- Runtime failures of the script: `row[i]` / `curves[i]` out of range, or a
missing dictionary key. -/
inductive PlotError where
  | indexError : PlotError
  | keyError : PlotError
  deriving Repr, DecidableEq

/-- The observable state of one subplot after its loop iteration:
grid declaration, plotted series, axis configuration and labels.
`yTickLabels = some []` records `ax.set_yticklabels([])`; `none` is the
matplotlib default (labels untouched). -/
structure Subplot where
  gridRows : Nat
  gridCols : Nat
  pos : Nat
  xData : List Int
  yData : List Int
  yAxisInverted : Bool
  xTicksTop : Bool
  xLabelPosTop : Bool
  yTickLabels : Option (List String)
  yLabel : Option String
  xLabel : String
  deriving Repr, DecidableEq

/-- Column extraction: `list(map(lambda row: row[i], data))`. Python's `map`
raises `IndexError` at the first row shorter than `i+1`; here that is `none`. -/
def column (data : List (List Int)) (i : Nat) : Option (List Int) :=
  match data with
  | [] => some []
  | r :: rest =>
    match r.get? i with
    | none => none
    | some v =>
      match column rest i with
      | none => none
      | some vs => some (v :: vs)

/-- The f-string `'{c["name"]} [{c["unit"]}]'`: reads the `name` key then the
`unit` key, raising `KeyError` if either is absent. -/
def label (c : Curve) : Except PlotError String :=
  match c.name? with
  | none => .error .keyError
  | some n =>
    match c.unit? with
    | none => .error .keyError
    | some u => .ok (n ++ " [" ++ u ++ "]")

/-- The label text a curve with both keys present produces. -/
def labelD (c : Curve) : String :=
  c.name?.getD "" ++ " [" ++ c.unit?.getD "" ++ "]"

/-- Both metadata keys are present. -/
def hasKeys (c : Curve) : Prop :=
  c.name?.isSome = true ∧ c.unit?.isSome = true

instance (c : Curve) : Decidable (hasKeys c) := by
  unfold hasKeys; infer_instance

/-- The `if curveIndex == 1: plt.ylabel(...)` step: on the first subplot the
vertical axis label is built from `curves[0]`; elsewhere no label is set. -/
def ylabelStep (curves : List Curve) (curveIndex : Nat) :
    Except PlotError (Option String) :=
  if curveIndex = 1 then
    match curves.get? 0 with
    | none => .error .indexError
    | some c0 =>
      match label c0 with
      | .error e => .error e
      | .ok s => .ok (some s)
  else .ok none

/-- One iteration of the loop body for a given `curveIndex`, in the script's
evaluation order: extract the value column, create the subplot in a 1-row grid
of width `len(curves)` at position `curveIndex`, plot `(curve, index)`, invert
the y axis, move x ticks and x label to the top, clear y tick labels when
`curveIndex > 1`, set the y label only when `curveIndex == 1`, and set the
x label from `curves[curveIndex]`. -/
def renderSubplot (curves : List Curve) (data : List (List Int))
    (index : List Int) (curveIndex : Nat) : Except PlotError Subplot :=
  match column data curveIndex with
  | none => .error .indexError
  | some curve =>
    match ylabelStep curves curveIndex with
    | .error e => .error e
    | .ok yLab =>
      match curves.get? curveIndex with
      | none => .error .indexError
      | some c =>
        match label c with
        | .error e => .error e
        | .ok xLab =>
          .ok { gridRows := 1
                gridCols := curves.length
                pos := curveIndex
                xData := curve
                yData := index
                yAxisInverted := true
                xTicksTop := true
                xLabelPosTop := true
                yTickLabels := if 1 < curveIndex then some [] else none
                yLabel := yLab
                xLabel := xLab }

/-- The `for curveIndex in range(1, len(curves))` loop: iterations run in
order and the first failure aborts the script. -/
def renderLoop (curves : List Curve) (data : List (List Int))
    (index : List Int) : List Nat → Except PlotError (List Subplot)
  | [] => .ok []
  | i :: rest =>
    match renderSubplot curves data index i with
    | .error e => .error e
    | .ok sp =>
      match renderLoop curves data index rest with
      | .error e => .error e
      | .ok sps => .ok (sp :: sps)

/-- The whole script after JSON loading: extract the index column
(`row[0]` over all rows), then run the loop over positions
`1, ..., len(curves)-1`. The figure title and `plt.show()` carry no further
observable state for the properties considered here. -/
def plotlog (log : Log) : Except PlotError (List Subplot) :=
  match column log.data 0 with
  | none => .error .indexError
  | some index =>
    renderLoop log.curves log.data index (List.range' 1 (log.curves.length - 1))

/-- The subplot value produced by a successful iteration at position `i`. -/
def mkSubplot (curves : List Curve) (data : List (List Int))
    (index : List Int) (i : Nat) : Subplot :=
  { gridRows := 1
    gridCols := curves.length
    pos := i
    xData := data.map (fun r => r.getD i 0)
    yData := index
    yAxisInverted := true
    xTicksTop := true
    xLabelPosTop := true
    yTickLabels := if 1 < i then some [] else none
    yLabel := if i = 1 then some (labelD (curves.getD 0 default)) else none
    xLabel := labelD (curves.getD i default) }

/-- The two-curve example of the spec: Depth in m, Gamma in API. -/
def logDG : Log :=
  { curves := [⟨some "Depth", some "m"⟩, ⟨some "Gamma", some "API"⟩]
    data := [[0, 10], [1, 20], [2, 15]] }

/-- A three-curve example with well-formed rows. -/
def exLog3 : Log :=
  { curves := [⟨some "Depth", some "m"⟩, ⟨some "Gamma", some "API"⟩,
               ⟨some "Res", some "ohmm"⟩]
    data := [[0, 10, 100], [1, 20, 200]] }

/-- A document whose `curves` list is empty but whose data is well formed. -/
def logNoCurves : Log :=
  { curves := [], data := [[1]] }

/-- A document whose second curve lacks the `unit` key. -/
def logMissingUnit : Log :=
  { curves := [⟨some "Depth", some "m"⟩, ⟨some "Gamma", none⟩]
    data := [[0, 10], [1, 20]] }

/-- A document with only the index curve. -/
def logOnlyIndex : Log :=
  { curves := [⟨some "Depth", some "m"⟩], data := [[0], [1]] }

/-- A document with two well-formed curves and an empty data list. -/
def logEmptyData : Log :=
  { curves := [⟨some "Depth", some "m"⟩, ⟨some "Gamma", some "API"⟩], data := [] }

theorem get?_getD {α : Type} (l : List α) (i : Nat) (d : α) (h : i < l.length) :
    l.get? i = some (l.getD i d) := by
  rw [List.getD_eq_getElem?_getD, List.get?_eq_getElem?, List.getElem?_eq_getElem h]
  simp

theorem column_ok (data : List (List Int)) (i : Nat)
    (h : ∀ r ∈ data, i < r.length) :
    column data i = some (data.map (fun r => r.getD i 0)) := by
  induction data with
  | nil => rfl
  | cons r rest ih =>
    have hr : i < r.length := h r (List.mem_cons_self r rest)
    have hrest := ih (fun r' hr' => h r' (List.mem_cons_of_mem _ hr'))
    unfold column
    rw [get?_getD r i 0 hr, hrest]
    simp

theorem column_len (data : List (List Int)) (i : Nat) (c : List Int)
    (h : column data i = some c) : c.length = data.length := by
  induction data generalizing c with
  | nil =>
    unfold column at h
    simp only [Option.some.injEq] at h
    simp [← h]
  | cons r rest ih =>
    unfold column at h
    cases hg : r.get? i with
    | none => rw [hg] at h; exact absurd h (by simp)
    | some v =>
      rw [hg] at h
      cases hc : column rest i with
      | none => rw [hc] at h; exact absurd h (by simp)
      | some vs =>
        rw [hc] at h
        simp only [Option.some.injEq] at h
        subst h
        simp [ih vs hc]

theorem column_none (data : List (List Int)) (i : Nat)
    (h : ∃ r ∈ data, r.length ≤ i) : column data i = none := by
  induction data with
  | nil => simp at h
  | cons r rest ih =>
    unfold column
    rcases h with ⟨r', hmem, hlen⟩
    rcases List.mem_cons.mp hmem with heq | hmem'
    · subst heq
      rw [List.get?_eq_none.mpr hlen]
    · rw [ih ⟨r', hmem', hlen⟩]
      cases r.get? i <;> rfl

theorem label_ok (c : Curve) (hc : hasKeys c) : label c = .ok (labelD c) := by
  obtain ⟨hn, hu⟩ := hc
  cases hN : c.name? with
  | none => rw [hN] at hn; simp at hn
  | some n =>
    cases hU : c.unit? with
    | none => rw [hU] at hu; simp at hu
    | some u => simp [label, labelD, hN, hU]

theorem label_fail (c : Curve) (hc : ¬ hasKeys c) :
    label c = .error .keyError := by
  unfold label
  cases hN : c.name? with
  | none => rfl
  | some n =>
    cases hU : c.unit? with
    | none => rfl
    | some u =>
      exact absurd ⟨by simp [hN], by simp [hU]⟩ hc

theorem renderSubplot_ok (curves : List Curve) (data : List (List Int))
    (index : List Int) (i : Nat) (hi : i < curves.length)
    (hrow : ∀ r ∈ data, i < r.length)
    (hkeys : ∀ c ∈ curves, hasKeys c) :
    renderSubplot curves data index i = .ok (mkSubplot curves data index i) := by
  have hcol := column_ok data i hrow
  have hci : curves.get? i = some (curves.getD i default) :=
    get?_getD curves i default hi
  have hki : hasKeys (curves.getD i default) := hkeys _ (List.get?_mem hci)
  unfold renderSubplot mkSubplot ylabelStep
  rw [hcol]
  by_cases h1 : i = 1
  · subst h1
    have h0 : (0 : Nat) < curves.length := by omega
    have hc0 : curves.get? 0 = some (curves.getD 0 default) :=
      get?_getD curves 0 default h0
    have hk0 : hasKeys (curves.getD 0 default) := hkeys _ (List.get?_mem hc0)
    rw [if_pos rfl, if_pos rfl]
    simp only [hc0, label_ok _ hk0, hci, label_ok _ hki]
  · rw [if_neg h1, if_neg h1]
    simp only [hci, label_ok _ hki]

theorem renderLoop_ok (curves : List Curve) (data : List (List Int))
    (index : List Int) (l : List Nat)
    (h : ∀ j ∈ l, renderSubplot curves data index j
          = .ok (mkSubplot curves data index j)) :
    renderLoop curves data index l = .ok (l.map (mkSubplot curves data index)) := by
  induction l with
  | nil => rfl
  | cons j rest ih =>
    unfold renderLoop
    rw [h j (List.mem_cons_self _ _), ih (fun x hx => h x (List.mem_cons_of_mem _ hx))]
    simp

theorem plotlog_ok (log : Log)
    (hK : 1 ≤ log.curves.length)
    (hrow : ∀ r ∈ log.data, log.curves.length ≤ r.length)
    (hkeys : ∀ c ∈ log.curves, hasKeys c) :
    plotlog log = .ok ((List.range' 1 (log.curves.length - 1)).map
      (mkSubplot log.curves log.data (log.data.map (fun r => r.getD 0 0)))) := by
  have hidx : column log.data 0
      = some (log.data.map (fun r => r.getD 0 0)) :=
    column_ok log.data 0 (fun r hr => lt_of_lt_of_le hK (hrow r hr))
  unfold plotlog
  rw [hidx]
  apply renderLoop_ok
  intro j hj
  have hjr := List.mem_range'_1.mp hj
  have hjK : j < log.curves.length := by omega
  exact renderSubplot_ok _ _ _ j hjK
    (fun r hr => lt_of_lt_of_le hjK (hrow r hr)) hkeys

theorem plotlog_get (log : Log)
    (hK : 1 ≤ log.curves.length)
    (hrow : ∀ r ∈ log.data, log.curves.length ≤ r.length)
    (hkeys : ∀ c ∈ log.curves, hasKeys c) :
    ∃ s, plotlog log = .ok s ∧ s.length = log.curves.length - 1 ∧
      ∀ j (hj : j < s.length),
        s.get ⟨j, hj⟩ = mkSubplot log.curves log.data
          (log.data.map (fun r => r.getD 0 0)) (1 + j) := by
  refine ⟨_, plotlog_ok log hK hrow hkeys, ?_, ?_⟩
  · simp [List.length_range']
  · intro j hj
    simp only [List.length_map, List.length_range'] at hj
    rw [List.get_eq_getElem, List.getElem_map, List.getElem_range'_1]

theorem renderSubplot_fail (curves : List Curve) (data : List (List Int))
    (index : List Int) (i : Nat) (c : Curve)
    (hic : curves.get? i = some c) (hc : ¬ hasKeys c) (h1 : i ≠ 1) :
    (renderSubplot curves data index i).isOk = false := by
  unfold renderSubplot ylabelStep
  cases hcol : column data i with
  | none => rfl
  | some curve =>
    rw [if_neg h1]
    simp only [hic, label_fail c hc]
    rfl

theorem renderSubplot_fail0 (curves : List Curve) (data : List (List Int))
    (index : List Int) (c : Curve)
    (h0 : curves.get? 0 = some c) (hc : ¬ hasKeys c) :
    (renderSubplot curves data index 1).isOk = false := by
  unfold renderSubplot ylabelStep
  cases hcol : column data 1 with
  | none => rfl
  | some curve =>
    rw [if_pos rfl]
    simp only [h0, label_fail c hc]
    rfl

theorem renderSubplot_fail1 (curves : List Curve) (data : List (List Int))
    (index : List Int) (c : Curve) (c0 : Curve)
    (hic : curves.get? 1 = some c) (hc : ¬ hasKeys c)
    (h0 : curves.get? 0 = some c0) :
    (renderSubplot curves data index 1).isOk = false := by
  unfold renderSubplot ylabelStep
  cases hcol : column data 1 with
  | none => rfl
  | some curve =>
    rw [if_pos rfl]
    simp only [h0]
    cases hl0 : label c0 with
    | error e => rfl
    | ok s =>
      simp only [hic, label_fail c hc]
      rfl

theorem renderLoop_fail (curves : List Curve) (data : List (List Int))
    (index : List Int) (l : List Nat) (j : Nat) (hj : j ∈ l)
    (hfail : (renderSubplot curves data index j).isOk = false) :
    (renderLoop curves data index l).isOk = false := by
  induction l with
  | nil => simp at hj
  | cons a rest ih =>
    unfold renderLoop
    rcases List.mem_cons.mp hj with heq | hmem
    · subst heq
      cases hres : renderSubplot curves data index j with
      | error e => rfl
      | ok sp => rw [hres] at hfail; exact Bool.noConfusion hfail
    · cases hres : renderSubplot curves data index a with
      | error e => rfl
      | ok sp =>
        have hrest := ih hmem
        cases hrl : renderLoop curves data index rest with
        | error e => rfl
        | ok sps => rw [hrl] at hrest; exact Bool.noConfusion hrest

/-- C1: for every data list and every column position `i` in range for every
row, the extracted column `i` equals the projection of position `i` across
the rows, in row order (`List.map` keeps the order); the index column is the
case `i = 0`. -/
theorem extracted_column_eq_projection (data : List (List Int)) (i : Nat)
    (h : ∀ r ∈ data, i < r.length) :
    column data i = some (data.map (fun r => r.getD i 0)) :=
  column_ok data i h

theorem extracted_column_eq_projection_witness :
    column [[0, 10], [1, 20], [2, 15]] 1 = some [10, 20, 15] := by
  have h := extracted_column_eq_projection [[0, 10], [1, 20], [2, 15]] 1
    (by decide)
  simpa using h

/-- C2: for a well-formed document with `curves` of length K (K ≥ 1) and all
data rows of length K, the renderer produces exactly K-1 subplots, one per
non-index curve, iterating curve positions 1..K-1 in ascending order (the
sequence of subplot positions is exactly `range' 1 (K-1)`). -/
theorem renderer_subplot_count (log : Log)
    (hK : 1 ≤ log.curves.length)
    (hrow : ∀ r ∈ log.data, r.length = log.curves.length)
    (hkeys : ∀ c ∈ log.curves, hasKeys c) :
    ∃ s, plotlog log = .ok s ∧ s.length = log.curves.length - 1 ∧
      s.map Subplot.pos = List.range' 1 (log.curves.length - 1) := by
  refine ⟨_, plotlog_ok log hK (fun r hr => (hrow r hr).ge) hkeys, ?_, ?_⟩
  · simp [List.length_range']
  · rw [List.map_map]
    have hpos : (Subplot.pos ∘ mkSubplot log.curves log.data
        (log.data.map (fun r => r.getD 0 0))) = id := by
      funext i
      rfl
    rw [hpos, List.map_id]

theorem renderer_subplot_count_witness :
    ∃ s, plotlog exLog3 = .ok s ∧ s.length = exLog3.curves.length - 1 ∧
      s.map Subplot.pos = List.range' 1 (exLog3.curves.length - 1) :=
  renderer_subplot_count exLog3 (by decide) (by decide) (by decide)

/-- C9: if some row of `data` is shorter than the requested column position
`i+1` positions, column extraction fails (Python raises `IndexError`; here
the extraction is `none`). -/
theorem short_row_extraction_fails (data : List (List Int)) (i : Nat)
    (h : ∃ r ∈ data, r.length ≤ i) : column data i = none :=
  column_none data i h

theorem short_row_extraction_fails_witness :
    column [[1, 2], [3]] 1 = none :=
  short_row_extraction_fails [[1, 2], [3]] 1 ⟨[3], by decide, by decide⟩

/-- C10: whenever column extraction succeeds, the extracted column has length
exactly the number of rows of `data`; hence every plotted series shares the
length of the index column. -/
theorem extracted_column_length (data : List (List Int)) (i : Nat)
    (c : List Int) (h : column data i = some c) : c.length = data.length :=
  column_len data i c h

theorem extracted_column_length_witness :
    ([0, 1, 2] : List Int).length
      = ([[0, 10], [1, 20], [2, 15]] : List (List Int)).length :=
  extracted_column_length [[0, 10], [1, 20], [2, 15]] 0 [0, 1, 2] (by decide)

/-- C3 counterexample: on a three-curve document the script declares the
subplot grid as `plt.subplot(1, len(curves), curveIndex)`, so the declared
width is N = 3, not N-1 = 2 as the claim states. -/
theorem subplot_grid_width_counterexample :
    (plotlog exLog3).map (List.map Subplot.gridCols) = Except.ok [3, 3] ∧
    ¬ ((plotlog exLog3).map (List.map Subplot.gridCols)
        = Except.ok [exLog3.curves.length - 1, exLog3.curves.length - 1]) := by
  constructor
  · rfl
  · intro h
    have h' : Except.ok (ε := PlotError) [3, 3] = Except.ok [2, 2] := h
    simp at h'

/-- C3 (amended): every subplot is created in a 1-row grid whose declared
width is N = len(curves) (the last grid cell stays unused), at position
`curveIndex` (the j-th created subplot sits at position j+1). -/
theorem subplot_grid_geometry (log : Log)
    (hK : 1 ≤ log.curves.length)
    (hrow : ∀ r ∈ log.data, r.length = log.curves.length)
    (hkeys : ∀ c ∈ log.curves, hasKeys c) :
    ∃ s, plotlog log = .ok s ∧ ∀ j (hj : j < s.length),
      (s.get ⟨j, hj⟩).gridRows = 1 ∧
      (s.get ⟨j, hj⟩).gridCols = log.curves.length ∧
      (s.get ⟨j, hj⟩).pos = j + 1 := by
  obtain ⟨s, hs, hlen, hget⟩ :=
    plotlog_get log hK (fun r hr => (hrow r hr).ge) hkeys
  refine ⟨s, hs, ?_⟩
  intro j hj
  rw [hget j hj]
  refine ⟨rfl, rfl, ?_⟩
  show 1 + j = j + 1
  omega

theorem subplot_grid_geometry_witness :
    ∃ s, plotlog exLog3 = .ok s ∧ ∀ j (hj : j < s.length),
      (s.get ⟨j, hj⟩).gridRows = 1 ∧
      (s.get ⟨j, hj⟩).gridCols = exLog3.curves.length ∧
      (s.get ⟨j, hj⟩).pos = j + 1 :=
  subplot_grid_geometry exLog3 (by decide) (by decide) (by decide)

/-- C4: with at least two curves, the first subplot carries the vertical axis
label built from curve 0 as `name [unit]` and untouched vertical tick labels,
while every later subplot has its vertical tick labels set to empty and no
vertical axis label. -/
theorem first_subplot_ylabel (log : Log)
    (hK : 2 ≤ log.curves.length)
    (hrow : ∀ r ∈ log.data, r.length = log.curves.length)
    (hkeys : ∀ c ∈ log.curves, hasKeys c)
    (n u : String)
    (hn : (log.curves.getD 0 default).name? = some n)
    (hu : (log.curves.getD 0 default).unit? = some u) :
    ∃ s, plotlog log = .ok s ∧ 0 < s.length ∧
      (∀ h0 : 0 < s.length,
        (s.get ⟨0, h0⟩).yLabel = some (n ++ " [" ++ u ++ "]") ∧
        (s.get ⟨0, h0⟩).yTickLabels = none) ∧
      ∀ j (hj : j < s.length), 1 ≤ j →
        (s.get ⟨j, hj⟩).yTickLabels = some [] ∧
        (s.get ⟨j, hj⟩).yLabel = none := by
  obtain ⟨s, hs, hlen, hget⟩ :=
    plotlog_get log (by omega) (fun r hr => (hrow r hr).ge) hkeys
  refine ⟨s, hs, by omega, ?_, ?_⟩
  · intro h0
    rw [hget 0 h0]
    constructor
    · show (if 1 + 0 = 1 then some (labelD (log.curves.getD 0 default))
          else none) = _
      rw [if_pos rfl]
      simp only [labelD, hn, hu, Option.getD_some]
    · show (if 1 < 1 + 0 then some [] else none) = none
      rw [if_neg (by omega)]
  · intro j hj h1j
    rw [hget j hj]
    constructor
    · show (if 1 < 1 + j then some [] else none) = some []
      rw [if_pos (by omega)]
    · show (if 1 + j = 1 then some (labelD (log.curves.getD 0 default))
          else none) = none
      rw [if_neg (by omega)]

theorem first_subplot_ylabel_witness :
    ∃ s, plotlog exLog3 = .ok s ∧ 0 < s.length ∧
      (∀ h0 : 0 < s.length,
        (s.get ⟨0, h0⟩).yLabel = some ("Depth" ++ " [" ++ "m" ++ "]") ∧
        (s.get ⟨0, h0⟩).yTickLabels = none) ∧
      ∀ j (hj : j < s.length), 1 ≤ j →
        (s.get ⟨j, hj⟩).yTickLabels = some [] ∧
        (s.get ⟨j, hj⟩).yLabel = none :=
  first_subplot_ylabel exLog3 (by decide) (by decide) (by decide)
    "Depth" "m" rfl rfl

/-- C5: the j-th created subplot (curve position j+1) has horizontal axis
label `name [unit]` of curve j+1, and its horizontal ticks and label sit at
the top edge. -/
theorem subplot_xlabel_top (log : Log)
    (hK : 1 ≤ log.curves.length)
    (hrow : ∀ r ∈ log.data, r.length = log.curves.length)
    (hkeys : ∀ c ∈ log.curves, hasKeys c) :
    ∃ s, plotlog log = .ok s ∧ ∀ j (hj : j < s.length),
      (∀ n u, (log.curves.getD (j + 1) default).name? = some n →
        (log.curves.getD (j + 1) default).unit? = some u →
        (s.get ⟨j, hj⟩).xLabel = n ++ " [" ++ u ++ "]") ∧
      (s.get ⟨j, hj⟩).xTicksTop = true ∧
      (s.get ⟨j, hj⟩).xLabelPosTop = true := by
  obtain ⟨s, hs, hlen, hget⟩ :=
    plotlog_get log hK (fun r hr => (hrow r hr).ge) hkeys
  refine ⟨s, hs, ?_⟩
  intro j hj
  rw [hget j hj]
  refine ⟨?_, rfl, rfl⟩
  intro n u hn hu
  show labelD (log.curves.getD (1 + j) default) = n ++ " [" ++ u ++ "]"
  rw [Nat.add_comm 1 j]
  simp only [labelD, hn, hu, Option.getD_some]

theorem subplot_xlabel_top_witness :
    ∃ s, plotlog logDG = .ok s ∧ ∀ j (hj : j < s.length),
      (∀ n u, (logDG.curves.getD (j + 1) default).name? = some n →
        (logDG.curves.getD (j + 1) default).unit? = some u →
        (s.get ⟨j, hj⟩).xLabel = n ++ " [" ++ u ++ "]") ∧
      (s.get ⟨j, hj⟩).xTicksTop = true ∧
      (s.get ⟨j, hj⟩).xLabelPosTop = true :=
  subplot_xlabel_top logDG (by decide) (by decide) (by decide)

/-- C6: every subplot has its vertical axis inverted, and plots the value
column of its curve against the shared index column (column 0), i.e. the
pairs (value, index) row by row. -/
theorem subplot_inverted_axis (log : Log)
    (hK : 1 ≤ log.curves.length)
    (hrow : ∀ r ∈ log.data, r.length = log.curves.length)
    (hkeys : ∀ c ∈ log.curves, hasKeys c) :
    ∃ s, plotlog log = .ok s ∧ ∀ j (hj : j < s.length),
      (s.get ⟨j, hj⟩).yAxisInverted = true ∧
      (s.get ⟨j, hj⟩).xData = log.data.map (fun r => r.getD (j + 1) 0) ∧
      (s.get ⟨j, hj⟩).yData = log.data.map (fun r => r.getD 0 0) := by
  obtain ⟨s, hs, hlen, hget⟩ :=
    plotlog_get log hK (fun r hr => (hrow r hr).ge) hkeys
  refine ⟨s, hs, ?_⟩
  intro j hj
  rw [hget j hj]
  refine ⟨rfl, ?_, rfl⟩
  show log.data.map (fun r => r.getD (1 + j) 0) = _
  rw [Nat.add_comm 1 j]

theorem subplot_inverted_axis_witness :
    ∃ s, plotlog logDG = .ok s ∧ ∀ j (hj : j < s.length),
      (s.get ⟨j, hj⟩).yAxisInverted = true ∧
      (s.get ⟨j, hj⟩).xData = logDG.data.map (fun r => r.getD (j + 1) 0) ∧
      (s.get ⟨j, hj⟩).yData = logDG.data.map (fun r => r.getD 0 0) :=
  subplot_inverted_axis logDG (by decide) (by decide) (by decide)

/-- C7 counterexample: a document with an empty `curves` list (and well-formed
data) does not fail: the loop body never runs and the script completes with
an empty figure, contradicting the claim that an empty `curves` list
propagates as an unhandled runtime error. -/
theorem empty_curves_no_failure : plotlog logNoCurves = Except.ok [] := rfl

/-- C7 (amended): a missing `name`/`unit` key on any curve of a document with
at least two curves makes the script fail with an uncaught error (KeyError),
but an empty `curves` list, or one holding only the index curve, completes
without error (the loop body never runs); likewise an empty `data` list is
not by itself an error. -/
theorem plotlog_failure_modes (log : Log) :
    (2 ≤ log.curves.length →
      (∃ c ∈ log.curves, c.name? = none ∨ c.unit? = none) →
      (plotlog log).isOk = false) ∧
    (log.curves.length ≤ 1 → (∀ r ∈ log.data, 1 ≤ r.length) →
      (plotlog log).isOk = true) := by
  constructor
  · rintro hK ⟨c, hmem, hmiss⟩
    have hc : ¬ hasKeys c := by
      rintro ⟨hn, hu⟩
      rcases hmiss with h | h
      · rw [h] at hn; simp at hn
      · rw [h] at hu; simp at hu
    unfold plotlog
    cases hcol : column log.data 0 with
    | none => rfl
    | some index =>
      obtain ⟨⟨i, hi⟩, hget⟩ := List.mem_iff_get.mp hmem
      have hgi : log.curves.get? i = some c := by
        rw [List.get?_eq_get hi, hget]
      rcases Nat.lt_or_ge i 1 with h0 | h1
      · have hi0 : i = 0 := by omega
        subst hi0
        exact renderLoop_fail _ _ _ _ 1
          (List.mem_range'_1.mpr ⟨le_refl 1, by omega⟩)
          (renderSubplot_fail0 _ _ _ c hgi hc)
      · rcases Nat.eq_or_lt_of_le h1 with h1e | h1lt
        · have hi1 : i = 1 := h1e.symm
          subst hi1
          have h0lt : 0 < log.curves.length := by omega
          have hg0 : log.curves.get? 0
              = some (log.curves.get ⟨0, h0lt⟩) := List.get?_eq_get h0lt
          exact renderLoop_fail _ _ _ _ 1
            (List.mem_range'_1.mpr ⟨le_refl 1, by omega⟩)
            (renderSubplot_fail1 _ _ _ c _ hgi hc hg0)
        · exact renderLoop_fail _ _ _ _ i
            (List.mem_range'_1.mpr ⟨by omega, by omega⟩)
            (renderSubplot_fail _ _ _ i c hgi hc (by omega))
  · intro hK hrows
    unfold plotlog
    have hcol : column log.data 0
        = some (log.data.map (fun r => r.getD 0 0)) :=
      column_ok log.data 0 (fun r hr => hrows r hr)
    rw [hcol]
    have hz : log.curves.length - 1 = 0 := by omega
    rw [hz]
    rfl

theorem plotlog_failure_modes_witness :
    (plotlog logMissingUnit).isOk = false ∧
    (plotlog logOnlyIndex).isOk = true :=
  ⟨(plotlog_failure_modes logMissingUnit).1 (by decide)
      ⟨⟨some "Gamma", none⟩, by decide, Or.inr rfl⟩,
   (plotlog_failure_modes logOnlyIndex).2 (by decide) (by decide)⟩

/-- C8: for a document with a non-empty `curves` list, well-formed metadata
and an empty `data` list, extraction yields the empty column at the index and
at every position, and the script completes without error, every subplot
plotting an empty series. -/
theorem empty_data_renders_ok (log : Log) (hdata : log.data = [])
    (hK : 1 ≤ log.curves.length)
    (hkeys : ∀ c ∈ log.curves, hasKeys c) :
    (∀ i, column log.data i = some []) ∧
    ∃ s, plotlog log = .ok s ∧ ∀ sp ∈ s, sp.xData = [] ∧ sp.yData = [] := by
  constructor
  · intro i
    rw [hdata]
    rfl
  · refine ⟨_, plotlog_ok log hK (by rw [hdata]; simp) hkeys, ?_⟩
    intro sp hsp
    rcases List.mem_map.mp hsp with ⟨i, hi, rfl⟩
    constructor
    · show log.data.map (fun r => r.getD i 0) = []
      rw [hdata]
      rfl
    · show log.data.map (fun r => r.getD 0 0) = []
      rw [hdata]
      rfl

theorem empty_data_renders_ok_witness :
    (∀ i, column logEmptyData.data i = some []) ∧
    ∃ s, plotlog logEmptyData = .ok s ∧
      ∀ sp ∈ s, sp.xData = [] ∧ sp.yData = [] :=
  empty_data_renders_ok logEmptyData rfl (by decide) (by decide)

end PlotLog
